import Mathlib

/-!
Verification development for the NatureOS Python SDK
(`src/natureos_sdk/client.py`, `src/natureos_sdk/exceptions.py`,
`src/natureos_sdk/__init__.py`).

Modelling conventions, chosen once and used throughout:

* Python `dict` values are association lists `List (String × α)` whose keys
  are unique (Python dicts cannot hold duplicate keys); item assignment
  `d[k] = v` is `dictSet`, `d.update(m)` is `dictUpdate`, `d.get(k, dflt)`
  is `dictGetD`.  `dictSet` replaces an existing key in place and appends a
  fresh key at the end, exactly as CPython insertion order behaves.
* JSON values are the inductive `Val`.
* `datetime` values are seconds since the Unix epoch (`Nat`); the two
  `datetime.utcnow()` calls inside one `get_sensor_data` invocation are
  modelled as observing one clock instant `now`, passed explicitly;
  `timedelta(hours=24)` is `86400`; `.isoformat()` is `isoformat`
  (microsecond component zero, so no fractional part is rendered).
* The `httpx.AsyncClient` transport handle is the structure `Handle`; the
  field `nextHandleId` of `ClientState` models Python object identity, so
  that "a fresh handle" is expressible as a distinct `id`.
* A network round trip is a function `Request → Except HttpxErr Response`
  supplied by the environment; `httpx` request methods raise only members
  of the `httpx.HTTPError` family, modelled by `HttpxErr`.
  `response.raise_for_status()` is `raise_for_status` (httpx raises
  `HTTPStatusError` for every non-2xx status).
* Each operation returns, besides the threaded client state, an `Op`
  record: the requests it issued, the log records it emitted
  (`logger.error` / `logger.info`, message text kept close to the
  f-strings of the source), and its outcome `Except PyErr α`, where
  `PyErr` covers both the httpx error family and the SDK's own
  exception taxonomy from `exceptions.py`.
-/

namespace NatureOS

/-- JSON-like values marshalled in request/response bodies and query
parameters (`Val.i` for Python ints, `Val.s` for strings, `Val.m` for
objects/dicts, `Val.arr` for arrays, `Val.null` for `None`). -/
inductive Val where
  | s (v : String)
  | i (v : Int)
  | m (v : List (String × Val))
  | arr (v : List Val)
  | null

/-- Python `d[k]` lookup returning `none` when the key is absent
(first occurrence; keys of a Python dict are unique). -/
def dictGet {α : Type} (d : List (String × α)) (k : String) : Option α :=
  match d.find? (fun p => p.1 = k) with
  | some p => some p.2
  | none => none

/-- Python `d.get(k, dflt)`. -/
def dictGetD {α : Type} (d : List (String × α)) (k : String) (dflt : α) : α :=
  match dictGet d k with
  | some v => v
  | none => dflt

/-- Python item assignment `d[k] = v`: replace in place when the key is
present, append at the end when it is fresh (CPython insertion order). -/
def dictSet {α : Type} : List (String × α) → String → α → List (String × α)
  | [], k, v => [(k, v)]
  | p :: rest, k, v => if p.1 = k then (k, v) :: rest else p :: dictSet rest k v

/-- Python `d.update(m)`: item-assign every entry of `m` into `d` in order. -/
def dictUpdate {α : Type} (d m : List (String × α)) : List (String × α) :=
  m.foldl (fun acc p => dictSet acc p.1 p.2) d

/-- Python `s.rstrip("/")`: remove every trailing `/` character. -/
def rstripSlash (s : String) : String :=
  String.mk ((s.data.reverse.dropWhile (fun c => c = '/')).reverse)

/-- Python `os.getenv(k, dflt)` over an environment modelled as an
association list. -/
def getenvD (env : List (String × String)) (k dflt : String) : String :=
  match dictGet env k with
  | some v => v
  | none => dflt

/-- Python `a or b` for an optional string `a`: `b` when `a` is `None` or
empty (falsy), `a` otherwise. -/
def pyOrStr (a : Option String) (b : String) : String :=
  match a with
  | some s => if s = "" then b else s
  | none => b

/-- The transport handle built by `_get_http_client`
(an `httpx.AsyncClient`); `id` models Python object identity. -/
structure Handle where
  id : Nat
  base_url : String
  headers : List (String × String)
  timeout : Int
  follow_redirects : Bool

/-- State of a `NatureOSClient` instance: the constructor-set fields and
the lazily created transport handle (`_http_client`).  `nextHandleId` is
the allocator counter modelling object identity of handles. -/
structure ClientState where
  config : List (String × Val)
  api_url : String
  api_key : String
  tenant_id : String
  timeout : Int
  max_retries : Int
  http_client : Option Handle
  nextHandleId : Nat

/-- `NatureOSClient.__init__`: each of `api_url`, `api_key`, `tenant_id`
defaults to its environment variable (with the documented literal
fallbacks) under Python `or` truthiness; trailing slashes of the base URL
are stripped; `config or {}`; the transport handle starts out absent. -/
def mkClient (env : List (String × String))
    (api_url api_key tenant_id : Option String)
    (timeout max_retries : Int)
    (config : Option (List (String × Val))) : ClientState :=
  { config := match config with
      | some [] => []
      | some c => c
      | none => []
    api_url := rstripSlash (pyOrStr api_url (getenvD env "NATUREOS_API_URL" "http://localhost:8002"))
    api_key := pyOrStr api_key (getenvD env "NATUREOS_API_KEY" "")
    tenant_id := pyOrStr tenant_id (getenvD env "NATUREOS_TENANT_ID" "")
    timeout := timeout
    max_retries := max_retries
    http_client := none
    nextHandleId := 0 }

/-- `_get_http_client`: return the existing handle, or build one carrying
the JSON headers, `Authorization` only when `api_key` is truthy and
`X-Tenant-ID` only when `tenant_id` is truthy, then store it. -/
def getHttpClient (st : ClientState) : ClientState × Handle :=
  match st.http_client with
  | some h => (st, h)
  | none =>
    let headers := [("Content-Type", "application/json"), ("Accept", "application/json")]
    let headers := if st.api_key ≠ "" then dictSet headers "Authorization" ("Bearer " ++ st.api_key) else headers
    let headers := if st.tenant_id ≠ "" then dictSet headers "X-Tenant-ID" st.tenant_id else headers
    let h : Handle :=
      { id := st.nextHandleId
        base_url := st.api_url
        headers := headers
        timeout := st.timeout
        follow_redirects := true }
    ({ st with http_client := some h, nextHandleId := st.nextHandleId + 1 }, h)

/-- `close`: when a handle is present (`httpx.AsyncClient` objects are
always truthy), release it and null the reference; otherwise do nothing. -/
def close (st : ClientState) : ClientState :=
  match st.http_client with
  | some _ => { st with http_client := none }
  | none => st

/-- The `httpx.HTTPError` family: connection-level failures
(`httpx.TransportError`) and `httpx.HTTPStatusError` raised by
`raise_for_status`. -/
inductive HttpxErr where
  | connect (msg : String)
  | status (code : Int)

/-- The ranks of the SDK exception taxonomy declared in `exceptions.py`. -/
inductive TaxRank where
  | base
  | authentication
  | notFound
  | rateLimit
  | server

/-- Every error value an operation of the client could raise: an httpx
error, or an exception of the SDK's own taxonomy. -/
inductive PyErr where
  | httpx (e : HttpxErr)
  | natureOS (rank : TaxRank) (message : String) (status_code : Option Int)

/-- Whether an error belongs to the SDK's own exception taxonomy. -/
def isNatureOSErr : PyErr → Bool
  | .natureOS _ _ _ => true
  | .httpx _ => false

/-- Whether an error is the taxonomy's base kind `NatureOSError` itself. -/
def isNatureOSBase : PyErr → Bool
  | .natureOS .base _ _ => true
  | _ => false

/-- HTTP method of a request. -/
inductive Method where
  | get
  | post

/-- One HTTP request as issued through the transport handle. -/
structure Request where
  method : Method
  path : String
  params : List (String × Val)
  body : Option Val

/-- An HTTP response: status code and parsed JSON object body. -/
structure Response where
  status : Int
  body : List (String × Val)

/-- Log severities used by the client. -/
inductive LogLevel where
  | info
  | error

/-- Observable outcome of one client operation: the requests it issued,
the log records it emitted, and its result or raised error. -/
structure Op (α : Type) where
  requests : List Request
  logs : List (LogLevel × String)
  result : Except PyErr α

/-- Rendering of an httpx error used inside the `f"... {e}"` log
messages. -/
def httpxErrStr : HttpxErr → String
  | .connect msg => msg
  | .status code => "HTTP status error " ++ toString code

/-- `response.raise_for_status()`: httpx raises `HTTPStatusError` for
every non-2xx status. -/
def raise_for_status (r : Response) : Except HttpxErr Response :=
  if 200 ≤ r.status ∧ r.status < 300 then .ok r else .error (.status r.status)

/-- Issue one request and check its status: `await client.get/post (...)`
followed by `response.raise_for_status()`. -/
def httpResult (transport : Request → Except HttpxErr Response) (req : Request) :
    Except HttpxErr Response :=
  (transport req).bind raise_for_status

/-- The shared `try/except httpx.HTTPError` shape of every operation: on
success, emit the operation's success logs and the parsed result; on an
httpx error, emit one error-severity log record carrying the operation's
context text and re-raise the same error unchanged. -/
def opOutcome (q : Except HttpxErr Response) (errCtx : String)
    (successLogs : List (LogLevel × String)) (parse : Response → Val) :
    List (LogLevel × String) × Except PyErr Val :=
  match q with
  | .error e => ([(.error, errCtx ++ httpxErrStr e)], .error (.httpx e))
  | .ok resp => (successLogs, .ok (parse resp))

/-- `list_devices`: GET `/devices` with `limit` plus the truthy filters;
on success return `data.get("items", [])`; on `httpx.HTTPError` log at
error severity and re-raise. -/
def list_devices (st : ClientState) (transport : Request → Except HttpxErr Response)
    (device_type status : Option String) (limit : Int) : ClientState × Op Val :=
  let st1 := (getHttpClient st).1
  let params : List (String × Val) := [("limit", Val.i limit)]
  let params := match device_type with
    | some s => if s ≠ "" then dictSet params "device_type" (Val.s s) else params
    | none => params
  let params := match status with
    | some s => if s ≠ "" then dictSet params "status" (Val.s s) else params
    | none => params
  let req : Request := { method := .get, path := "/devices", params := params, body := none }
  let out := opOutcome (httpResult transport req) "Error listing devices: " []
    (fun resp => dictGetD resp.body "items" (Val.arr []))
  (st1, { requests := [req], logs := out.1, result := out.2 })

/-- `get_device`: GET `/devices/{device_id}`; on success return the JSON
body; on `httpx.HTTPError` log at error severity and re-raise. -/
def get_device (st : ClientState) (transport : Request → Except HttpxErr Response)
    (device_id : String) : ClientState × Op Val :=
  let st1 := (getHttpClient st).1
  let req : Request := { method := .get, path := "/devices/" ++ device_id, params := [], body := none }
  let out := opOutcome (httpResult transport req) ("Error getting device " ++ device_id ++ ": ") []
    (fun resp => Val.m resp.body)
  (st1, { requests := [req], logs := out.1, result := out.2 })

/-- `register_device`: POST `/devices/register` with the three required
fields, adding `location` and `metadata` only when truthy; log an info
record on success; on `httpx.HTTPError` log at error severity and
re-raise. -/
def register_device (st : ClientState) (transport : Request → Except HttpxErr Response)
    (device_id name device_type : String)
    (location metadata : Option (List (String × Val))) : ClientState × Op Val :=
  let st1 := (getHttpClient st).1
  let payload : List (String × Val) :=
    [("device_id", Val.s device_id), ("name", Val.s name), ("device_type", Val.s device_type)]
  let payload := match location with
    | some [] => payload
    | some l => dictSet payload "location" (Val.m l)
    | none => payload
  let payload := match metadata with
    | some [] => payload
    | some m => dictSet payload "metadata" (Val.m m)
    | none => payload
  let req : Request := { method := .post, path := "/devices/register", params := [], body := some (Val.m payload) }
  let out := opOutcome (httpResult transport req) "Error registering device: "
    [(.info, "Registered device: " ++ device_id)] (fun resp => Val.m resp.body)
  (st1, { requests := [req], logs := out.1, result := out.2 })

/-- Zero-padded two-digit rendering of a field of a timestamp. -/
def pad2 (n : Nat) : String :=
  if n < 10 then "0" ++ toString n else toString n

/-- Zero-padded four-digit rendering of a year (Python renders years with
%04d). -/
def pad4 (n : Nat) : String :=
  if n < 10 then "000" ++ toString n
  else if n < 100 then "00" ++ toString n
  else if n < 1000 then "0" ++ toString n
  else toString n

/-- Proleptic-Gregorian civil date `(year, month, day)` of a day count
since 1970-01-01 (the standard era-based conversion used by civil-time
libraries). -/
def civilFromDays (z : Nat) : Nat × Nat × Nat :=
  let z := z + 719468
  let era := z / 146097
  let doe := z % 146097
  let yoe := (doe - doe / 1460 + doe / 36524 - doe / 146096) / 365
  let y := yoe + era * 400
  let doy := doe - (365 * yoe + yoe / 4 - yoe / 100)
  let mp := (5 * doy + 2) / 153
  let d := doy - (153 * mp + 2) / 5 + 1
  let m := if mp < 10 then mp + 3 else mp - 9
  (if m ≤ 2 then y + 1 else y, m, d)

/-- `datetime.isoformat()` of a UTC timestamp held as seconds since the
Unix epoch: `YYYY-MM-DDTHH:MM:SS` (the microsecond component is zero at
this granularity, so no fractional part is rendered). -/
def isoformat (t : Nat) : String :=
  let days := t / 86400
  let sod := t % 86400
  let ymd := civilFromDays days
  pad4 ymd.1 ++ "-" ++ pad2 ymd.2.1 ++ "-" ++ pad2 ymd.2.2 ++ "T" ++
    pad2 (sod / 3600) ++ ":" ++ pad2 (sod % 3600 / 60) ++ ":" ++ pad2 (sod % 60)

/-- `get_sensor_data`: GET `/devices/{device_id}/sensor-data` with
`limit`, the truthy `sensor_type` filter, and a time window that defaults
to `[utcnow() - 24h, utcnow()]` rendered via `isoformat`; on success
return `data.get("items", [])`; on `httpx.HTTPError` log at error
severity and re-raise.  `now` is the clock instant the `utcnow()` calls
observe; `datetime` arguments are always truthy, so only `None` selects a
default bound. -/
def get_sensor_data (st : ClientState) (transport : Request → Except HttpxErr Response)
    (now : Nat) (device_id : String) (sensor_type : Option String)
    (start_time end_time : Option Nat) (limit : Int) : ClientState × Op Val :=
  let st1 := (getHttpClient st).1
  let params : List (String × Val) := [("limit", Val.i limit)]
  let params := match sensor_type with
    | some s => if s ≠ "" then dictSet params "sensor_type" (Val.s s) else params
    | none => params
  let params := match start_time with
    | some t => dictSet params "start_time" (Val.s (isoformat t))
    | none => dictSet params "start_time" (Val.s (isoformat (now - 86400)))
  let params := match end_time with
    | some t => dictSet params "end_time" (Val.s (isoformat t))
    | none => dictSet params "end_time" (Val.s (isoformat now))
  let req : Request :=
    { method := .get, path := "/devices/" ++ device_id ++ "/sensor-data", params := params, body := none }
  let out := opOutcome (httpResult transport req) "Error getting sensor data: " []
    (fun resp => dictGetD resp.body "items" (Val.arr []))
  (st1, { requests := [req], logs := out.1, result := out.2 })

/-- `send_command`: POST `/devices/{device_id}/commands` with the command
type and parameters; log an info record on success; on `httpx.HTTPError`
log at error severity and re-raise. -/
def send_command (st : ClientState) (transport : Request → Except HttpxErr Response)
    (device_id command_type : String) (parameters : List (String × Val)) :
    ClientState × Op Val :=
  let st1 := (getHttpClient st).1
  let payload : List (String × Val) :=
    [("command_type", Val.s command_type), ("parameters", Val.m parameters)]
  let req : Request :=
    { method := .post, path := "/devices/" ++ device_id ++ "/commands", params := [], body := some (Val.m payload) }
  let out := opOutcome (httpResult transport req) "Error sending command: "
    [(.info, "Sent command " ++ command_type ++ " to device " ++ device_id)] (fun resp => Val.m resp.body)
  (st1, { requests := [req], logs := out.1, result := out.2 })

/-- The `device_metadata` dict built at the top of
`register_mycobrain_device`: the explicit `serial_number`,
`firmware_version` and the fixed `device_type: "mycobrain"`, then
`update`d with the caller metadata when that is truthy. -/
def mycobrainMetadata (serial_number firmware_version : String)
    (metadata : Option (List (String × Val))) : List (String × Val) :=
  let device_metadata : List (String × Val) :=
    [("serial_number", Val.s serial_number),
     ("firmware_version", Val.s firmware_version),
     ("device_type", Val.s "mycobrain")]
  match metadata with
  | some [] => device_metadata
  | some m => dictUpdate device_metadata m
  | none => device_metadata

/-- `register_mycobrain_device`: build the embedded metadata dict
(`mycobrainMetadata`), then delegate to `register_device` with
`device_type` fixed to `"mycobrain"`. -/
def register_mycobrain_device (st : ClientState) (transport : Request → Except HttpxErr Response)
    (device_id serial_number name firmware_version : String)
    (location metadata : Option (List (String × Val))) : ClientState × Op Val :=
  register_device st transport device_id name "mycobrain" location
    (some (mycobrainMetadata serial_number firmware_version metadata))

/-- Outcome of evaluating a Python module: success, or a `NameError` for
the first unresolvable name. -/
inductive ModuleEval where
  | ok
  | nameError (name : String)
deriving DecidableEq

/-- Builtin names `exceptions.py` relies on; `Optional` lives in
`typing`, not in the builtins. -/
def pythonBuiltins : List String :=
  ["Exception", "str", "int", "bool", "dict", "list", "super", "None"]

/-- Names bound at module top level in `src/natureos_sdk/exceptions.py`
before the `class NatureOSError` statement executes: that module has
no import statements at all. -/
def exceptionsModuleTopLevelNames : List String := []

/-- Names the `def __init__(self, message: str, status_code: Optional[int] = None)`
statement looks up, in order, while the class body of `NatureOSError`
executes: without `from __future__ import annotations`, parameter
annotations are evaluated eagerly at definition time (the default Python
semantics this model follows), and `Optional[int]` evaluates `Optional`
before subscripting it with `int`. -/
def natureOSErrorInitAnnotationNames : List String := ["str", "Optional", "int"]

/-- Evaluate a chain of name lookups against a scope: the first name not
in scope raises `NameError`. -/
def lookupChain (scope names : List String) : ModuleEval :=
  match names.find? (fun n => !(scope.contains n)) with
  | some n => .nameError n
  | none => .ok

/-- Evaluating `src/natureos_sdk/exceptions.py`: executing the class body
of `NatureOSError` evaluates the `__init__` annotations against the
module scope (no imports) plus the builtins. -/
def evalExceptionsModule : ModuleEval :=
  lookupChain (exceptionsModuleTopLevelNames ++ pythonBuiltins) natureOSErrorInitAnnotationNames

/-- Evaluating `src/natureos_sdk/client.py`: its imports (`os`,
`logging`, `typing`, `datetime`, `httpx`) all resolve and its top level
binds only names that exist, so the module evaluates successfully. -/
def evalClientModule : ModuleEval := .ok

/-- Evaluating `src/natureos_sdk/__init__.py`: it imports
`natureos_sdk.client` and then `natureos_sdk.exceptions`; the
first failing module aborts the package import. -/
def evalPackageInit : ModuleEval :=
  match evalClientModule with
  | .nameError n => .nameError n
  | .ok => evalExceptionsModule

/-- Constructing an exception of the taxonomy requires `exceptions.py` to
have evaluated; when that module evaluation failed, the construction is
unreachable and the module-level error is all a caller can observe. -/
def constructTaxonomyError (rank : TaxRank) (message : String) (status_code : Option Int) :
    Except ModuleEval PyErr :=
  match evalExceptionsModule with
  | .nameError n => .error (.nameError n)
  | .ok => .ok (.natureOS rank message status_code)

/-- The single request an operation issued (every operation of this
client issues exactly one). -/
def firstRequest (op : Op Val) : Request :=
  op.requests.headD { method := .get, path := "", params := [], body := none }

/-- Field `k` of the JSON object body of a request. -/
def reqBodyField (r : Request) (k : String) : Option Val :=
  match r.body with
  | some (.m fields) => dictGet fields k
  | _ => none

/-- Field `k` of the embedded `metadata` object of a request body. -/
def reqMetadataField (r : Request) (k : String) : Option Val :=
  match reqBodyField r "metadata" with
  | some (.m md) => dictGet md k
  | _ => none

/-- String content of an optional JSON value, when it is a string. -/
def valStr : Option Val → Option String
  | some (.s s) => some s
  | _ => none

/-- Query parameter `k` of a parameter list, as a string (empty when
absent or not a string). -/
def paramStr (ps : List (String × Val)) (k : String) : String :=
  match dictGet ps k with
  | some (.s s) => s
  | _ => ""

/-- Whether an operation raised an error (rather than returning a
success value). -/
def opFailed (op : Op Val) : Bool :=
  match op.result with
  | .error _ => true
  | .ok _ => false

/-- Whether the error an operation raised is the taxonomy's base kind
`NatureOSError` (false as well when the operation succeeded). -/
def raisedNatureOSBase (op : Op Val) : Bool :=
  match op.result with
  | .error e => isNatureOSBase e
  | .ok _ => false

/-- The behaviour the propagation policy demands of an operation hitting
a transport-level failure: the same error re-raised unchanged (so no
success value is returned on that path), exactly one error-severity log
record with the operation's context, and exactly one request issued (no
retry). -/
def opFailsProperly (op : Op Val) (ctx : String) (e : HttpxErr) : Prop :=
  op.result = .error (.httpx e) ∧
  op.logs = [(LogLevel.error, ctx ++ httpxErrStr e)] ∧
  op.requests.length = 1

end NatureOS

namespace NatureOS

theorem dictGet_nil {α : Type} (k : String) : dictGet ([] : List (String × α)) k = none := rfl

theorem dictGet_cons {α : Type} (k0 : String) (v0 : α) (rest : List (String × α)) (k : String) :
    dictGet ((k0, v0) :: rest) k = if k0 = k then some v0 else dictGet rest k := by
  by_cases h : k0 = k <;> simp [dictGet, List.find?, h]

theorem dictSet_cons {α : Type} (k0 : String) (v0 : α) (rest : List (String × α)) (k : String) (v : α) :
    dictSet ((k0, v0) :: rest) k v = if k0 = k then (k, v) :: rest else (k0, v0) :: dictSet rest k v := rfl

theorem dictGet_dictSet_self {α : Type} (d : List (String × α)) (k : String) (v : α) :
    dictGet (dictSet d k v) k = some v := by
  induction d with
  | nil => simp [dictSet, dictGet_cons]
  | cons p rest ih =>
    rcases p with ⟨k0, v0⟩
    by_cases h : k0 = k
    · simp [dictSet_cons, h, dictGet_cons]
    · simp [dictSet_cons, h, dictGet_cons, ih]

theorem dictGet_dictSet_ne {α : Type} (d : List (String × α)) (k k' : String) (v : α)
    (h : k ≠ k') : dictGet (dictSet d k v) k' = dictGet d k' := by
  induction d with
  | nil => simp [dictSet, dictGet_cons, dictGet_nil, h]
  | cons p rest ih =>
    rcases p with ⟨k0, v0⟩
    by_cases h0 : k0 = k
    · subst h0; simp [dictSet_cons, dictGet_cons, h]
    · simp [dictSet_cons, h0, dictGet_cons, ih]

theorem dictGet_eq_none {α : Type} (d : List (String × α)) (k : String)
    (h : k ∉ d.map Prod.fst) : dictGet d k = none := by
  induction d with
  | nil => rfl
  | cons p rest ih =>
    rcases p with ⟨k0, v0⟩
    simp only [List.map_cons, List.mem_cons, not_or] at h
    have hk : k0 ≠ k := fun hh => h.1 hh.symm
    simp [dictGet_cons, hk, ih h.2]

theorem dictUpdate_nil {α : Type} (d : List (String × α)) : dictUpdate d [] = d := rfl

theorem dictUpdate_cons {α : Type} (d : List (String × α)) (p : String × α) (m : List (String × α)) :
    dictUpdate d (p :: m) = dictUpdate (dictSet d p.1 p.2) m := rfl

theorem dictGet_dictUpdate_of_none {α : Type} (d m : List (String × α)) (k : String)
    (h : dictGet m k = none) : dictGet (dictUpdate d m) k = dictGet d k := by
  induction m generalizing d with
  | nil => rfl
  | cons p rest ih =>
    rcases p with ⟨k0, v0⟩
    rw [dictGet_cons] at h
    by_cases h0 : k0 = k
    · simp [h0] at h
    · have hrest : dictGet rest k = none := by simpa [h0] using h
      rw [dictUpdate_cons, ih _ hrest]
      exact dictGet_dictSet_ne _ _ _ _ h0

theorem dictGet_dictUpdate_of_some {α : Type} (d m : List (String × α)) (k : String) (v : α)
    (hnd : (m.map Prod.fst).Nodup) (h : dictGet m k = some v) :
    dictGet (dictUpdate d m) k = some v := by
  induction m generalizing d with
  | nil => simp [dictGet_nil] at h
  | cons p rest ih =>
    rcases p with ⟨k0, v0⟩
    simp only [List.map_cons, List.nodup_cons] at hnd
    rw [dictGet_cons] at h
    by_cases h0 : k0 = k
    · subst h0
      simp only [if_pos rfl] at h
      have hrest : dictGet rest k0 = none := dictGet_eq_none _ _ hnd.1
      rw [dictUpdate_cons, dictGet_dictUpdate_of_none _ _ _ hrest]
      rw [dictGet_dictSet_self]
      exact h
    · have hrest : dictGet rest k = some v := by simpa [h0] using h
      rw [dictUpdate_cons]
      exact ih _ hnd.2 hrest

theorem dictSet_length {α : Type} (d : List (String × α)) (k : String) (v : α) :
    d.length ≤ (dictSet d k v).length := by
  induction d with
  | nil => simp [dictSet]
  | cons p rest ih =>
    rcases p with ⟨k0, v0⟩
    by_cases h : k0 = k
    · simp [dictSet_cons, h]
    · simpa [dictSet_cons, h] using ih

theorem dictUpdate_length {α : Type} (d m : List (String × α)) :
    d.length ≤ (dictUpdate d m).length := by
  induction m generalizing d with
  | nil => simp [dictUpdate_nil]
  | cons p rest ih =>
    rw [dictUpdate_cons]
    exact le_trans (dictSet_length d p.1 p.2) (ih _)

end NatureOS

namespace NatureOS

theorem getHttpClient_of_some (st : ClientState) (h : Handle)
    (hh : st.http_client = some h) : getHttpClient st = (st, h) := by
  simp [getHttpClient, hh]

theorem getHttpClient_stores (st : ClientState) :
    (getHttpClient st).1.http_client = some (getHttpClient st).2 := by
  cases hh : st.http_client with
  | none => simp [getHttpClient, hh]
  | some h => simp [getHttpClient, hh]

theorem getHttpClient_idem (st : ClientState) :
    getHttpClient (getHttpClient st).1 = ((getHttpClient st).1, (getHttpClient st).2) :=
  getHttpClient_of_some _ _ (getHttpClient_stores st)

theorem close_http_client (st : ClientState) : (close st).http_client = none := by
  cases hh : st.http_client with
  | none => simp [close, hh]
  | some h => simp [close, hh]

theorem close_close (st : ClientState) : close (close st) = close st := by
  cases hh : st.http_client with
  | none => simp [close, hh]
  | some h => simp [close, hh]

theorem httpResult_const_err (e : HttpxErr) (req : Request) :
    httpResult (fun _ => .error e) req = .error e := rfl

theorem httpResult_const_ok_bad (resp : Response)
    (h : ¬ (200 ≤ resp.status ∧ resp.status < 300)) (req : Request) :
    httpResult (fun _ => .ok resp) req = .error (.status resp.status) := by
  simp [httpResult, raise_for_status, Except.bind, h]

theorem httpResult_const_ok_good (resp : Response)
    (h1 : 200 ≤ resp.status) (h2 : resp.status < 300) (req : Request) :
    httpResult (fun _ => .ok resp) req = .ok resp := by
  simp [httpResult, raise_for_status, Except.bind, h1, h2]

theorem opOutcome_result_not_taxonomy (q : Except HttpxErr Response) (c : String)
    (sl : List (LogLevel × String)) (f : Response → Val) (e : PyErr)
    (h : (opOutcome q c sl f).2 = .error e) : isNatureOSErr e = false := by
  cases q with
  | error e0 =>
    simp only [opOutcome] at h
    cases h
    rfl
  | ok r => simp [opOutcome] at h

theorem mycobrainMetadata_ne_nil (sn fw : String) (md : Option (List (String × Val))) :
    mycobrainMetadata sn fw md ≠ [] := by
  cases md with
  | none => simp [mycobrainMetadata]
  | some m =>
    cases m with
    | nil => simp [mycobrainMetadata]
    | cons p rest =>
      simp only [mycobrainMetadata]
      intro hnil
      have h3 := dictUpdate_length
        [("serial_number", Val.s sn), ("firmware_version", Val.s fw),
         ("device_type", Val.s "mycobrain")] (p :: rest)
      rw [hnil] at h3
      simp at h3

theorem mycobrainMetadata_override (sn fw : String) (md : List (String × Val))
    (k : String) (v : Val) (hnd : (md.map Prod.fst).Nodup) (h : dictGet md k = some v) :
    dictGet (mycobrainMetadata sn fw (some md)) k = some v := by
  cases md with
  | nil => simp [dictGet_nil] at h
  | cons p rest =>
    simp only [mycobrainMetadata]
    exact dictGet_dictUpdate_of_some _ _ _ _ hnd h

theorem mycobrainMetadata_default (sn fw : String) (md : List (String × Val))
    (k : String) (h : dictGet md k = none) :
    dictGet (mycobrainMetadata sn fw (some md)) k =
      dictGet [("serial_number", Val.s sn), ("firmware_version", Val.s fw),
               ("device_type", Val.s "mycobrain")] k := by
  cases md with
  | nil => rfl
  | cons p rest =>
    simp only [mycobrainMetadata]
    exact dictGet_dictUpdate_of_none _ _ _ h

theorem register_device_fields (st : ClientState) (tr : Request → Except HttpxErr Response)
    (device_id name device_type : String) (location : Option (List (String × Val)))
    (dm : List (String × Val)) (hne : dm ≠ []) :
    reqBodyField (firstRequest (register_device st tr device_id name device_type location (some dm)).2) "metadata" = some (Val.m dm) ∧
    reqBodyField (firstRequest (register_device st tr device_id name device_type location (some dm)).2) "device_type" = some (Val.s device_type) := by
  obtain ⟨a, l, rfl⟩ := List.exists_cons_of_ne_nil hne
  rcases location with _ | (_ | ⟨q, ql⟩)
  · exact ⟨rfl, rfl⟩
  · exact ⟨rfl, rfl⟩
  · exact ⟨rfl, rfl⟩

end NatureOS

namespace NatureOS

/-- C3: `exceptions.py` references `Optional` in the `__init__` signature
of `NatureOSError` without importing it, so evaluating that module raises
`NameError: Optional` while the class body executes; `__init__.py`
imports the module, so importing the package fails the same way before
any client code can run, and no exception of the taxonomy can ever be
constructed. -/
theorem claim_C3 :
    evalExceptionsModule = .nameError "Optional" ∧
    evalPackageInit = .nameError "Optional" ∧
    ∀ (rank : TaxRank) (message : String) (status_code : Option Int),
      constructTaxonomyError rank message status_code = .error (.nameError "Optional") :=
  ⟨rfl, rfl, fun _ _ _ => rfl⟩

/-- C7: `register_device` called with absent `location` and `metadata`
POSTs to `/devices/register` a body holding exactly the keys
`device_id`, `name`, `device_type`; in particular no `location` or
`metadata` key is present (omitted entirely rather than sent as null). -/
theorem claim_C7 (st : ClientState) (transport : Request → Except HttpxErr Response)
    (device_id name device_type : String) :
    (register_device st transport device_id name device_type none none).2.requests =
      [{ method := .post, path := "/devices/register", params := [],
         body := some (Val.m [("device_id", Val.s device_id), ("name", Val.s name),
                              ("device_type", Val.s device_type)]) }] ∧
    reqBodyField (firstRequest (register_device st transport device_id name device_type none none).2) "location" = none ∧
    reqBodyField (firstRequest (register_device st transport device_id name device_type none none).2) "metadata" = none :=
  ⟨rfl, rfl, rfl⟩

/-- C9: a successful `list_devices` call returns `data.get("items", [])`
of the parsed response; when the `items` field is absent the result is
the empty sequence, never an absent/null value. -/
theorem claim_C9 (st : ClientState) (device_type status : Option String) (limit : Int)
    (resp : Response) (h1 : 200 ≤ resp.status) (h2 : resp.status < 300) :
    (list_devices st (fun _ => .ok resp) device_type status limit).2.result =
      .ok (dictGetD resp.body "items" (Val.arr [])) ∧
    (dictGet resp.body "items" = none →
      (list_devices st (fun _ => .ok resp) device_type status limit).2.result =
        .ok (Val.arr [])) := by
  constructor
  · simp [list_devices, opOutcome, httpResult_const_ok_good resp h1 h2]
  · intro habs
    simp [list_devices, opOutcome, httpResult_const_ok_good resp h1 h2, dictGetD, habs]

/-- Witness for C9 at a concrete client, a 200 response with empty body,
and default arguments. -/
theorem claim_C9_witness :
    (list_devices (mkClient [] none none none 30 3 none)
      (fun _ => .ok { status := 200, body := [] }) none none 100).2.result =
      .ok (Val.arr []) :=
  (claim_C9 (mkClient [] none none none 30 3 none) none none 100
    { status := 200, body := [] } (by decide) (by decide)).2 rfl

/-- C10: presence of an optional value is decided by Python truthiness:
an empty-string `device_type` or `status` filter behaves exactly like an
absent one, an empty-mapping `location` or `metadata` behaves exactly
like an absent one, and an empty `api_key` or `tenant_id` leaves the
`Authorization` or `X-Tenant-ID` header out of the transport handle. -/
theorem claim_C10 :
    (∀ st tr status lim, list_devices st tr (some "") status lim = list_devices st tr none status lim) ∧
    (∀ st tr dt lim, list_devices st tr dt (some "") lim = list_devices st tr dt none lim) ∧
    (∀ st tr i n d md, register_device st tr i n d (some []) md = register_device st tr i n d none md) ∧
    (∀ st tr i n d loc, register_device st tr i n d loc (some []) = register_device st tr i n d loc none) ∧
    (∀ st, st.http_client = none → st.api_key = "" →
      dictGet ((getHttpClient st).2).headers "Authorization" = none) ∧
    (∀ st, st.http_client = none → st.tenant_id = "" →
      dictGet ((getHttpClient st).2).headers "X-Tenant-ID" = none) := by
  refine ⟨fun _ _ _ _ => rfl, fun _ _ _ _ => rfl, fun _ _ _ _ _ _ => rfl, fun _ _ _ _ _ _ => rfl, ?_, ?_⟩
  · intro st h hak
    simp only [getHttpClient, h, hak]
    split
    · rfl
    · rfl
  · intro st h htid
    simp only [getHttpClient, h, htid]
    rw [if_neg (fun hc => hc rfl)]
    split
    · rfl
    · rfl

/-- Witness for C10's header clauses at a concrete client with empty key
and tenant (plus instances of the truthiness clauses). -/
theorem claim_C10_witness :
    dictGet ((getHttpClient (mkClient [] none none none 30 3 none)).2).headers "Authorization" = none ∧
    dictGet ((getHttpClient (mkClient [] none none none 30 3 none)).2).headers "X-Tenant-ID" = none ∧
    list_devices (mkClient [] none none none 30 3 none) (fun _ => .ok { status := 200, body := [] }) (some "") none 100 =
      list_devices (mkClient [] none none none 30 3 none) (fun _ => .ok { status := 200, body := [] }) none none 100 :=
  ⟨claim_C10.2.2.2.2.1 (mkClient [] none none none 30 3 none) rfl rfl,
   claim_C10.2.2.2.2.2 (mkClient [] none none none 30 3 none) rfl rfl,
   claim_C10.1 (mkClient [] none none none 30 3 none)
     (fun _ => .ok { status := 200, body := [] }) none 100⟩

end NatureOS

namespace NatureOS

/-- C5: the transport handle is created at most once by idempotent lazy
initialization (an existing handle is returned unchanged, a created one
is stored and every subsequent acquisition returns it), `close` releases
the handle and nulls the internal reference, a second `close` in
succession is a no-op (it cannot raise), and acquiring after `close`
creates a fresh handle. -/
theorem claim_C5 :
    (∀ st h, st.http_client = some h → getHttpClient st = (st, h)) ∧
    (∀ st, (getHttpClient st).1.http_client = some (getHttpClient st).2) ∧
    (∀ st, getHttpClient (getHttpClient st).1 = ((getHttpClient st).1, (getHttpClient st).2)) ∧
    (∀ st, (close st).http_client = none) ∧
    (∀ st, close (close st) = close st) ∧
    (∀ st, st.http_client = none →
      ((getHttpClient (close (getHttpClient st).1)).2).id ≠ ((getHttpClient st).2).id) := by
  refine ⟨getHttpClient_of_some, getHttpClient_stores, getHttpClient_idem,
    close_http_client, close_close, ?_⟩
  intro st h
  simp [getHttpClient, close, h]

/-- Witness for C5 at a concrete client: handle reuse, double close, and
freshness of the handle re-created after close. -/
theorem claim_C5_witness :
    getHttpClient (getHttpClient (mkClient [] none none none 30 3 none)).1 =
      ((getHttpClient (mkClient [] none none none 30 3 none)).1,
       (getHttpClient (mkClient [] none none none 30 3 none)).2) ∧
    close (close (mkClient [] none none none 30 3 none)) = close (mkClient [] none none none 30 3 none) ∧
    ((getHttpClient (close (getHttpClient (mkClient [] none none none 30 3 none)).1)).2).id ≠
      ((getHttpClient (mkClient [] none none none 30 3 none)).2).id :=
  ⟨claim_C5.1 (getHttpClient (mkClient [] none none none 30 3 none)).1
      (getHttpClient (mkClient [] none none none 30 3 none)).2
      (claim_C5.2.1 (mkClient [] none none none 30 3 none)),
   claim_C5.2.2.2.2.1 (mkClient [] none none none 30 3 none),
   claim_C5.2.2.2.2.2 (mkClient [] none none none 30 3 none) rfl⟩

/-- C8: each of `api_url`, `api_key`, `tenant_id`, when not passed
explicitly, is sourced from its environment variable
(`NATUREOS_API_URL`, `NATUREOS_API_KEY`, `NATUREOS_TENANT_ID`), falling
back to the literal defaults `http://localhost:8002` and empty strings
when the variable is absent; the stored base URL is the effective URL
with all trailing slashes stripped, in particular a supplied non-empty
URL is stored as that URL stripped of trailing slashes. -/
theorem claim_C8 :
    (∀ env t mr,
      (mkClient env none none none t mr none).api_url =
        rstripSlash (getenvD env "NATUREOS_API_URL" "http://localhost:8002") ∧
      (mkClient env none none none t mr none).api_key = getenvD env "NATUREOS_API_KEY" "" ∧
      (mkClient env none none none t mr none).tenant_id = getenvD env "NATUREOS_TENANT_ID" "") ∧
    (∀ env t mr, dictGet env "NATUREOS_API_URL" = none →
      dictGet env "NATUREOS_API_KEY" = none →
      dictGet env "NATUREOS_TENANT_ID" = none →
      (mkClient env none none none t mr none).api_url = "http://localhost:8002" ∧
      (mkClient env none none none t mr none).api_key = "" ∧
      (mkClient env none none none t mr none).tenant_id = "") ∧
    (∀ env u ak tid t mr cfg, u ≠ "" →
      (mkClient env (some u) ak tid t mr cfg).api_url = rstripSlash u) := by
  refine ⟨fun env t mr => ⟨rfl, rfl, rfl⟩, ?_, ?_⟩
  · intro env t mr h1 h2 h3
    refine ⟨?_, ?_, ?_⟩
    · show rstripSlash (pyOrStr none (getenvD env "NATUREOS_API_URL" "http://localhost:8002")) = _
      simp [getenvD, h1, pyOrStr]
      rfl
    · show pyOrStr none (getenvD env "NATUREOS_API_KEY" "") = _
      simp [getenvD, h2, pyOrStr]
    · show pyOrStr none (getenvD env "NATUREOS_TENANT_ID" "") = _
      simp [getenvD, h3, pyOrStr]
  · intro env u ak tid t mr cfg hu
    show rstripSlash (pyOrStr (some u) _) = _
    simp [pyOrStr, hu]

/-- Witness for C8 at a concrete environment and a concrete URL with
trailing slashes. -/
theorem claim_C8_witness :
    (mkClient [] none none none 30 3 none).api_url = "http://localhost:8002" ∧
    (mkClient [] none none none 30 3 none).api_key = "" ∧
    (mkClient [] none none none 30 3 none).tenant_id = "" ∧
    (mkClient [] (some "http://h///") none none 30 3 none).api_url = rstripSlash "http://h///" :=
  ⟨(claim_C8.2.1 [] 30 3 rfl rfl rfl).1,
   (claim_C8.2.1 [] 30 3 rfl rfl rfl).2.1,
   (claim_C8.2.1 [] 30 3 rfl rfl rfl).2.2,
   claim_C8.2.2 [] "http://h///" none none 30 3 none (by decide)⟩

end NatureOS

namespace NatureOS

/-- C1 counterexample: calling `register_mycobrain_device` with caller
metadata `{"device_type": "rogue"}` produces an embedded metadata
mapping whose `device_type` is `"rogue"`, not `"mycobrain"`: `update`
lets caller metadata override the three fixed keys, contradicting the
claim as stated. -/
theorem claim_C1_counterexample :
    valStr (reqMetadataField (firstRequest
      (register_mycobrain_device (mkClient [] none none none 30 3 none)
        (fun _ => .ok { status := 200, body := [] })
        "dev-1" "SN-1" "Brain" "1.0.0" none (some [("device_type", Val.s "rogue")])).2)
      "device_type") = some "rogue" ∧
    valStr (reqMetadataField (firstRequest
      (register_mycobrain_device (mkClient [] none none none 30 3 none)
        (fun _ => .ok { status := 200, body := [] })
        "dev-1" "SN-1" "Brain" "1.0.0" none (some [("device_type", Val.s "rogue")])).2)
      "device_type") ≠ some "mycobrain" := by
  have h1 : valStr (reqMetadataField (firstRequest
      (register_mycobrain_device (mkClient [] none none none 30 3 none)
        (fun _ => .ok { status := 200, body := [] })
        "dev-1" "SN-1" "Brain" "1.0.0" none (some [("device_type", Val.s "rogue")])).2)
      "device_type") = some "rogue" := rfl
  refine ⟨h1, ?_⟩
  rw [h1]
  decide

/-- C1 (amended): the top-level `device_type` of the registration is
always `"mycobrain"`, and in the embedded metadata the fixed
`serial_number`/`firmware_version`/`device_type` entries are injected
first but caller-supplied metadata overrides them on every key collision
(not only outside the three fixed keys); a fixed entry survives exactly
when the caller metadata does not contain that key, and with no caller
metadata all three fixed entries are sent. -/
theorem claim_C1_amended (st : ClientState) (tr : Request → Except HttpxErr Response)
    (device_id serial_number name firmware_version : String)
    (location : Option (List (String × Val))) (md : List (String × Val))
    (hnd : (md.map Prod.fst).Nodup) :
    reqBodyField (firstRequest (register_mycobrain_device st tr device_id serial_number name firmware_version location (some md)).2) "device_type" = some (Val.s "mycobrain") ∧
    reqBodyField (firstRequest (register_mycobrain_device st tr device_id serial_number name firmware_version location none).2) "device_type" = some (Val.s "mycobrain") ∧
    (dictGet md "device_type" = none →
      reqMetadataField (firstRequest (register_mycobrain_device st tr device_id serial_number name firmware_version location (some md)).2) "device_type" = some (Val.s "mycobrain")) ∧
    (dictGet md "serial_number" = none →
      reqMetadataField (firstRequest (register_mycobrain_device st tr device_id serial_number name firmware_version location (some md)).2) "serial_number" = some (Val.s serial_number)) ∧
    (dictGet md "firmware_version" = none →
      reqMetadataField (firstRequest (register_mycobrain_device st tr device_id serial_number name firmware_version location (some md)).2) "firmware_version" = some (Val.s firmware_version)) ∧
    (∀ k v, dictGet md k = some v →
      reqMetadataField (firstRequest (register_mycobrain_device st tr device_id serial_number name firmware_version location (some md)).2) k = some v) ∧
    reqMetadataField (firstRequest (register_mycobrain_device st tr device_id serial_number name firmware_version location none).2) "device_type" = some (Val.s "mycobrain") ∧
    reqMetadataField (firstRequest (register_mycobrain_device st tr device_id serial_number name firmware_version location none).2) "serial_number" = some (Val.s serial_number) ∧
    reqMetadataField (firstRequest (register_mycobrain_device st tr device_id serial_number name firmware_version location none).2) "firmware_version" = some (Val.s firmware_version) := by
  have hud : register_mycobrain_device st tr device_id serial_number name firmware_version location (some md) =
      register_device st tr device_id name "mycobrain" location
        (some (mycobrainMetadata serial_number firmware_version (some md))) := rfl
  have hudN : register_mycobrain_device st tr device_id serial_number name firmware_version location none =
      register_device st tr device_id name "mycobrain" location
        (some (mycobrainMetadata serial_number firmware_version none)) := rfl
  have hf := register_device_fields st tr device_id name "mycobrain" location _
    (mycobrainMetadata_ne_nil serial_number firmware_version (some md))
  have hfN := register_device_fields st tr device_id name "mycobrain" location _
    (mycobrainMetadata_ne_nil serial_number firmware_version none)
  have hmf : ∀ k, reqMetadataField (firstRequest (register_device st tr device_id name "mycobrain" location (some (mycobrainMetadata serial_number firmware_version (some md)))).2) k =
      dictGet (mycobrainMetadata serial_number firmware_version (some md)) k := by
    intro k
    simp [reqMetadataField, hf.1]
  have hmfN : ∀ k, reqMetadataField (firstRequest (register_device st tr device_id name "mycobrain" location (some (mycobrainMetadata serial_number firmware_version none))).2) k =
      dictGet (mycobrainMetadata serial_number firmware_version none) k := by
    intro k
    simp [reqMetadataField, hfN.1]
  rw [hud, hudN]
  refine ⟨hf.2, hfN.2, ?_, ?_, ?_, ?_, ?_, ?_, ?_⟩
  · intro h
    rw [hmf, mycobrainMetadata_default _ _ _ _ h]
    rfl
  · intro h
    rw [hmf, mycobrainMetadata_default _ _ _ _ h]
    rfl
  · intro h
    rw [hmf, mycobrainMetadata_default _ _ _ _ h]
    rfl
  · intro k v h
    rw [hmf]
    exact mycobrainMetadata_override _ _ _ _ _ hnd h
  · rw [hmfN]
    rfl
  · rw [hmfN]
    rfl
  · rw [hmfN]
    rfl

/-- Witness for the amended C1 at a concrete call whose caller metadata
collides on `device_type`: the top-level field is still `"mycobrain"`
and the embedded field is the caller's value. -/
theorem claim_C1_amended_witness :
    reqBodyField (firstRequest
      (register_mycobrain_device (mkClient [] none none none 30 3 none)
        (fun _ => .ok { status := 200, body := [] })
        "dev-1" "SN-1" "Brain" "1.0.0" none (some [("device_type", Val.s "rogue")])).2)
      "device_type" = some (Val.s "mycobrain") ∧
    reqMetadataField (firstRequest
      (register_mycobrain_device (mkClient [] none none none 30 3 none)
        (fun _ => .ok { status := 200, body := [] })
        "dev-1" "SN-1" "Brain" "1.0.0" none (some [("device_type", Val.s "rogue")])).2)
      "device_type" = some (Val.s "rogue") :=
  ⟨(claim_C1_amended (mkClient [] none none none 30 3 none)
      (fun _ => .ok { status := 200, body := [] })
      "dev-1" "SN-1" "Brain" "1.0.0" none [("device_type", Val.s "rogue")] (by decide)).1,
   (claim_C1_amended (mkClient [] none none none 30 3 none)
      (fun _ => .ok { status := 200, body := [] })
      "dev-1" "SN-1" "Brain" "1.0.0" none [("device_type", Val.s "rogue")] (by decide)).2.2.2.2.2.1
     "device_type" (Val.s "rogue") rfl⟩

end NatureOS

namespace NatureOS

/-- C2 counterexample: with a failing transport, `list_devices` raises an
error, and that raised error is not the taxonomy's base kind
`NatureOSError` — the client re-raises the httpx error itself,
contradicting the claim as stated. -/
theorem claim_C2_counterexample :
    opFailed (list_devices (mkClient [] none none none 30 3 none)
      (fun _ => .error (.connect "connection refused")) none none 100).2 = true ∧
    raisedNatureOSBase (list_devices (mkClient [] none none none 30 3 none)
      (fun _ => .error (.connect "connection refused")) none none 100).2 = false :=
  ⟨rfl, rfl⟩

/-- C2 (amended): for every failing operation, the error raised to the
caller is the transport library's own error re-raised unchanged; no error
of the client's taxonomy — neither the base `NatureOSError` nor any of
the four specializations — is ever raised by the client's logic. -/
theorem claim_C2_amended :
    (∀ st tr dt stf lim e, (list_devices st tr dt stf lim).2.result = .error e → isNatureOSErr e = false) ∧
    (∀ st tr id e, (get_device st tr id).2.result = .error e → isNatureOSErr e = false) ∧
    (∀ st tr id nm dty loc md e, (register_device st tr id nm dty loc md).2.result = .error e → isNatureOSErr e = false) ∧
    (∀ st tr now id sty stt ent lim e, (get_sensor_data st tr now id sty stt ent lim).2.result = .error e → isNatureOSErr e = false) ∧
    (∀ st tr id ct ps e, (send_command st tr id ct ps).2.result = .error e → isNatureOSErr e = false) ∧
    (∀ st tr id sn nm fw loc md e, (register_mycobrain_device st tr id sn nm fw loc md).2.result = .error e → isNatureOSErr e = false) := by
  refine ⟨?_, ?_, ?_, ?_, ?_, ?_⟩
  · intro st tr dt stf lim e h
    exact opOutcome_result_not_taxonomy _ _ _ _ e h
  · intro st tr id e h
    exact opOutcome_result_not_taxonomy _ _ _ _ e h
  · intro st tr id nm dty loc md e h
    exact opOutcome_result_not_taxonomy _ _ _ _ e h
  · intro st tr now id sty stt ent lim e h
    exact opOutcome_result_not_taxonomy _ _ _ _ e h
  · intro st tr id ct ps e h
    exact opOutcome_result_not_taxonomy _ _ _ _ e h
  · intro st tr id sn nm fw loc md e h
    exact opOutcome_result_not_taxonomy _ _ _ _ e h

/-- Witness for the amended C2: a concrete failing `list_devices` call
raises exactly the httpx connection error, which is not a taxonomy
error. -/
theorem claim_C2_amended_witness :
    isNatureOSErr (PyErr.httpx (.connect "connection refused")) = false :=
  claim_C2_amended.1 (mkClient [] none none none 30 3 none)
    (fun _ => .error (.connect "connection refused")) none none 100
    (PyErr.httpx (.connect "connection refused")) rfl

end NatureOS

namespace NatureOS

/-- C4: every operation issues exactly one request whatever the transport
does (so no retry ever happens, regardless of the configured
`max_retries`, which every quantified client state covers), and on every
transport-level failure — a connection error from the transport or a
non-2xx response — the operation emits exactly one error-severity log
record with its context text and re-raises the same error unchanged, so
its error path never also returns a success value. -/
theorem claim_C4 :
    (∀ st tr dt stf lim, (list_devices st tr dt stf lim).2.requests.length = 1) ∧
    (∀ st tr id, (get_device st tr id).2.requests.length = 1) ∧
    (∀ st tr id nm dty loc md, (register_device st tr id nm dty loc md).2.requests.length = 1) ∧
    (∀ st tr now id sty stt ent lim, (get_sensor_data st tr now id sty stt ent lim).2.requests.length = 1) ∧
    (∀ st tr id ct ps, (send_command st tr id ct ps).2.requests.length = 1) ∧
    (∀ st tr id sn nm fw loc md, (register_mycobrain_device st tr id sn nm fw loc md).2.requests.length = 1) ∧
    (∀ st e dt stf lim, opFailsProperly (list_devices st (fun _ => .error e) dt stf lim).2 "Error listing devices: " e) ∧
    (∀ st e id, opFailsProperly (get_device st (fun _ => .error e) id).2 ("Error getting device " ++ id ++ ": ") e) ∧
    (∀ st e id nm dty loc md, opFailsProperly (register_device st (fun _ => .error e) id nm dty loc md).2 "Error registering device: " e) ∧
    (∀ st e now id sty stt ent lim, opFailsProperly (get_sensor_data st (fun _ => .error e) now id sty stt ent lim).2 "Error getting sensor data: " e) ∧
    (∀ st e id ct ps, opFailsProperly (send_command st (fun _ => .error e) id ct ps).2 "Error sending command: " e) ∧
    (∀ st e id sn nm fw loc md, opFailsProperly (register_mycobrain_device st (fun _ => .error e) id sn nm fw loc md).2 "Error registering device: " e) ∧
    (∀ st (resp : Response), ¬ (200 ≤ resp.status ∧ resp.status < 300) →
      (∀ dt stf lim, opFailsProperly (list_devices st (fun _ => .ok resp) dt stf lim).2 "Error listing devices: " (.status resp.status)) ∧
      (∀ id, opFailsProperly (get_device st (fun _ => .ok resp) id).2 ("Error getting device " ++ id ++ ": ") (.status resp.status)) ∧
      (∀ id nm dty loc md, opFailsProperly (register_device st (fun _ => .ok resp) id nm dty loc md).2 "Error registering device: " (.status resp.status)) ∧
      (∀ now id sty stt ent lim, opFailsProperly (get_sensor_data st (fun _ => .ok resp) now id sty stt ent lim).2 "Error getting sensor data: " (.status resp.status)) ∧
      (∀ id ct ps, opFailsProperly (send_command st (fun _ => .ok resp) id ct ps).2 "Error sending command: " (.status resp.status)) ∧
      (∀ id sn nm fw loc md, opFailsProperly (register_mycobrain_device st (fun _ => .ok resp) id sn nm fw loc md).2 "Error registering device: " (.status resp.status))) := by
  refine ⟨fun _ _ _ _ _ => rfl, fun _ _ _ => rfl, fun _ _ _ _ _ _ _ => rfl,
    fun _ _ _ _ _ _ _ _ => rfl, fun _ _ _ _ _ => rfl, fun _ _ _ _ _ _ _ _ => rfl,
    fun _ _ _ _ _ => ⟨rfl, rfl, rfl⟩, fun _ _ _ => ⟨rfl, rfl, rfl⟩,
    fun _ _ _ _ _ _ _ => ⟨rfl, rfl, rfl⟩, fun _ _ _ _ _ _ _ _ => ⟨rfl, rfl, rfl⟩,
    fun _ _ _ _ _ => ⟨rfl, rfl, rfl⟩, fun _ _ _ _ _ _ _ _ => ⟨rfl, rfl, rfl⟩, ?_⟩
  intro st resp h
  have hq := httpResult_const_ok_bad resp h
  refine ⟨?_, ?_, ?_, ?_, ?_, ?_⟩
  · intro dt stf lim
    exact ⟨by simp [list_devices, opOutcome, hq], by simp [list_devices, opOutcome, hq], rfl⟩
  · intro id
    exact ⟨by simp [get_device, opOutcome, hq], by simp [get_device, opOutcome, hq], rfl⟩
  · intro id nm dty loc md
    exact ⟨by simp [register_device, opOutcome, hq], by simp [register_device, opOutcome, hq], rfl⟩
  · intro now id sty stt ent lim
    exact ⟨by simp [get_sensor_data, opOutcome, hq], by simp [get_sensor_data, opOutcome, hq], rfl⟩
  · intro id ct ps
    exact ⟨by simp [send_command, opOutcome, hq], by simp [send_command, opOutcome, hq], rfl⟩
  · intro id sn nm fw loc md
    exact ⟨by simp [register_mycobrain_device, register_device, opOutcome, hq],
      by simp [register_mycobrain_device, register_device, opOutcome, hq], rfl⟩

/-- Witness for C4 at a concrete client and a concrete 500 response. -/
theorem claim_C4_witness :
    opFailsProperly (list_devices (mkClient [] none none none 30 3 none)
      (fun _ => .ok { status := 500, body := [] }) none none 100).2
      "Error listing devices: " (.status 500) :=
  (claim_C4.2.2.2.2.2.2.2.2.2.2.2.2 (mkClient [] none none none 30 3 none)
    { status := 500, body := [] } (by decide)).1 none none 100

end NatureOS

namespace NatureOS

/-- C6: `get_sensor_data` with no explicit time window sends
`start_time = isoformat(now - 24h)` and `end_time = isoformat(now)` for
the call-time clock instant `now` (both in UTC), while an explicitly
supplied bound is sent as its ISO-8601 rendering instead of the default;
the default windows of two calls at different instants are distinct and a
shift of the clock shifts the window correspondingly, as the concrete
one-second-apart calls also show at the rendered-string level. -/
theorem claim_C6 :
    (∀ st tr now id lim,
      (get_sensor_data st tr now id none none none lim).2.requests =
        [{ method := .get, path := "/devices/" ++ id ++ "/sensor-data",
           params := [("limit", Val.i lim), ("start_time", Val.s (isoformat (now - 86400))),
                      ("end_time", Val.s (isoformat now))], body := none }]) ∧
    (∀ st tr now id lim b e,
      (get_sensor_data st tr now id none (some b) (some e) lim).2.requests =
        [{ method := .get, path := "/devices/" ++ id ++ "/sensor-data",
           params := [("limit", Val.i lim), ("start_time", Val.s (isoformat b)),
                      ("end_time", Val.s (isoformat e))], body := none }]) ∧
    (∀ n1 n2 : Nat, n1 ≠ n2 → (n1 - 86400, n1) ≠ (n2 - 86400, n2)) ∧
    (∀ now d : Nat, 86400 ≤ now → (now + d - 86400, now + d) = (now - 86400 + d, now + d)) ∧
    paramStr (firstRequest (get_sensor_data (mkClient [] none none none 30 3 none)
        (fun _ => .ok { status := 200, body := [] }) 1700000000 "dev-1" none none none 1000).2).params "end_time" ≠
      paramStr (firstRequest (get_sensor_data (mkClient [] none none none 30 3 none)
        (fun _ => .ok { status := 200, body := [] }) 1700000001 "dev-1" none none none 1000).2).params "end_time" ∧
    paramStr (firstRequest (get_sensor_data (mkClient [] none none none 30 3 none)
        (fun _ => .ok { status := 200, body := [] }) 1700000000 "dev-1" none none none 1000).2).params "start_time" ≠
      paramStr (firstRequest (get_sensor_data (mkClient [] none none none 30 3 none)
        (fun _ => .ok { status := 200, body := [] }) 1700000001 "dev-1" none none none 1000).2).params "start_time" := by
  refine ⟨fun _ _ _ _ _ => rfl, fun _ _ _ _ _ _ _ => rfl, ?_, ?_, ?_, ?_⟩
  · intro n1 n2 h heq
    exact h (congrArg Prod.snd heq)
  · intro now d h
    have hs : now + d - 86400 = now - 86400 + d := by omega
    rw [hs]
  · decide
  · decide

/-- Witness for C6: distinctness of the default windows of two concrete
instants and correct shifting of a concrete window. -/
theorem claim_C6_witness :
    ((1700000000 : Nat) - 86400, (1700000000 : Nat)) ≠ ((1700000001 : Nat) - 86400, (1700000001 : Nat)) ∧
    ((86400 : Nat) + 5 - 86400, (86400 : Nat) + 5) = ((86400 : Nat) - 86400 + 5, (86400 : Nat) + 5) :=
  ⟨claim_C6.2.2.1 1700000000 1700000001 (by decide),
   claim_C6.2.2.2.1 86400 5 (by decide)⟩

end NatureOS
